import Mathlib

/-!
Shallow embedding of the in-memory library catalog of this repository
(`src/Quiz 03/Refactor/02-modern-js/library.js`, the data module embedded in
that file, `src/02-modern-js/data.js`, `src/Quiz 03/Refactor/02-modern-js/data.js`
and the library module `src/unnamed/part_001`), together with proofs about the
catalog operations: search, update, filter-by-status, statistics, summaries,
memoization and the statistics accessor.

JavaScript values are modelled as follows: a field that may be absent
(`undefined`) is an `Option`; template-literal interpolation of `undefined`
prints the string "undefined"; `===` on strings is `=`; `String.prototype.includes`
is substring containment; `toLowerCase` on the ASCII data of this repository is
`asciiLower` mapped over the characters.  A JavaScript `TypeError` (calling a
method of `undefined`) is modelled with `Except.error`.
-/

namespace LibSpec

/-- ASCII lower-casing of one character, the behaviour of
`String.prototype.toLowerCase` on the ASCII strings of this repository. -/
def asciiLower (c : Char) : Char :=
  if 'A' ≤ c ∧ c ≤ 'Z' then Char.ofNat (c.toNat + 32) else c

/-- Lower-casing `s.toLowerCase()` for the ASCII strings of this repository. -/
def jsToLower (s : String) : String := ⟨s.data.map asciiLower⟩

/-- Does `pat` occur at the head of `t`?  (Helper for substring containment.) -/
def leadMatch : List Char → List Char → Bool
  | [], _ => true
  | _ :: _, [] => false
  | a :: as, b :: bs => a == b && leadMatch as bs

/-- Does `pat` occur somewhere inside the text?  (Helper for `jsIncludes`.) -/
def hasSeg (pat : List Char) : List Char → Bool
  | [] => pat.isEmpty
  | t :: ts => leadMatch pat (t :: ts) || hasSeg pat ts

/-- Containment `s.includes(sub)` — substring check, as on JavaScript strings. -/
def jsIncludes (s sub : String) : Bool := hasSeg sub.data s.data

theorem leadMatch_iff (pat : List Char) :
    ∀ t, leadMatch pat t = true ↔ ∃ r, t = pat ++ r := by
  induction pat with
  | nil =>
      intro t
      simp [leadMatch]
  | cons a as ih =>
      intro t
      cases t with
      | nil =>
          simp [leadMatch]
      | cons b bs =>
          simp only [leadMatch, Bool.and_eq_true, beq_iff_eq, ih bs]
          constructor
          · rintro ⟨rfl, r, rfl⟩
            exact ⟨r, rfl⟩
          · rintro ⟨r, h⟩
            injection h with h1 h2
            exact ⟨h1.symm, r, h2⟩

theorem hasSeg_iff (pat : List Char) :
    ∀ t, hasSeg pat t = true ↔ ∃ l r, t = l ++ pat ++ r := by
  intro t
  induction t with
  | nil =>
      simp only [hasSeg, List.isEmpty_iff]
      constructor
      · rintro rfl; exact ⟨[], [], rfl⟩
      · rintro ⟨l, r, h⟩
        rcases List.append_eq_nil.mp h.symm with ⟨h1, h2⟩
        exact (List.append_eq_nil.mp h1).2
  | cons b bs ih =>
      simp only [hasSeg, Bool.or_eq_true, leadMatch_iff, ih]
      constructor
      · rintro (⟨r, h⟩ | ⟨l, r, h⟩)
        · exact ⟨[], r, by simpa using h⟩
        · exact ⟨b :: l, r, by simp [h]⟩
      · rintro ⟨l, r, h⟩
        cases l with
        | nil => exact Or.inl ⟨r, by simpa using h⟩
        | cons x xs =>
            injection h with h1 h2
            exact Or.inr ⟨xs, r, h2⟩

/-- Relation of `jsIncludes` to substring decomposition: `jsIncludes s sub` holds
exactly when `sub` is a contiguous substring of `s`. -/
theorem jsIncludes_iff (s sub : String) :
    jsIncludes s sub = true ↔ ∃ l r, s.data = l ++ sub.data ++ r :=
  hasSeg_iff sub.data s.data

-- ---------------------------------------------------------------------------
-- Data model (spec §3): records with optional availability sub-record.
-- Any field of a JavaScript object may be `undefined`, so every field is an
-- `Option`; `none` models an absent/undefined property.
-- ---------------------------------------------------------------------------

/-- The optional availability sub-record of a book. -/
structure Availability where
  status : Option String
  location : Option String
  dueDate : Option String
deriving DecidableEq, Repr

/-- One catalog record (book object). -/
structure Book where
  id : Option Int
  title : Option String
  author : Option String
  year : Option Int
  genre : Option String
  availability : Option Availability
deriving DecidableEq, Repr

/-- A search criteria object `{ title, author, genre }`; absent keys are `none`. -/
structure SearchQuery where
  title : Option String
  author : Option String
  genre : Option String
deriving DecidableEq, Repr

/-- A partial-update object passed to `updateBook`. -/
structure BookUpdate where
  title : Option String
  author : Option String
  genre : Option String
  availability : Option Availability
deriving DecidableEq, Repr

/-- JavaScript truthiness of an optional string: `undefined` and `""` are falsy. -/
def jsTruthyStr (o : Option String) : Bool :=
  match o with
  | none => false
  | some s => s ≠ ""

/-- Template-literal interpolation of an optional string (`undefined` prints
as "undefined"). -/
def jsStr (o : Option String) : String := o.getD "undefined"

/-- Template-literal interpolation of an optional integer. -/
def jsIntStr (o : Option Int) : String :=
  match o with
  | none => "undefined"
  | some n => toString n

-- ---------------------------------------------------------------------------
-- searchBooks — `src/Quiz 03/Refactor/02-modern-js/library.js` lines 54-75.
-- `normalize = (str) => caseSensitive ? str : str?.toLowerCase?.() ?? ""`.
-- In the case-insensitive default the normalized value is always a string;
-- with `caseSensitive = true` the raw (possibly undefined) field is used and
-- `undefined.includes(...)` throws a TypeError, modelled with `Except.error`.
-- ---------------------------------------------------------------------------

/-- Normalization `str?.toLowerCase?.() ?? ""` — the case-insensitive arm of
the `normalize` helper. -/
def normalizeCI (o : Option String) : String :=
  match o with
  | none => ""
  | some s => jsToLower s

/-- One criterion of the case-insensitive `searchBooks` path:
`t ? normalize(book.field).includes(t) : true` with `t = normalize(crit)`. -/
def ciMatch (crit field : Option String) : Bool :=
  let t := normalizeCI crit
  if t = "" then true else jsIncludes (normalizeCI field) t

/-- The filter predicate of `searchBooks` in the case-insensitive default. -/
def ciPred (q : SearchQuery) (b : Book) : Bool :=
  ciMatch q.title b.title && ciMatch q.author b.author && ciMatch q.genre b.genre

/-- One criterion of the case-sensitive `searchBooks` path:
`normalize` is the identity, so a truthy criterion checked against an absent
field evaluates `undefined.includes(t)` and throws. -/
def csMatch (crit field : Option String) : Except String Bool :=
  match crit with
  | none => .ok true
  | some v =>
      if v = "" then .ok true
      else
        match field with
        | none => .error "TypeError"
        | some f => .ok (jsIncludes f v)

/-- The filter predicate of `searchBooks`; `matchTitle`, `matchAuthor` and
`matchGenre` are all evaluated before the conjunction, as in the source. -/
def sbPredE (q : SearchQuery) (caseSensitive : Bool) (b : Book) : Except String Bool :=
  if caseSensitive then do
    let mt ← csMatch q.title b.title
    let ma ← csMatch q.author b.author
    let mg ← csMatch q.genre b.genre
    pure (mt && ma && mg)
  else pure (ciPred q b)

/-- Filtering `Array.prototype.filter` with a predicate that may throw: the books are
scanned left to right and the first thrown error aborts the call. -/
def filterE (p : Book → Except String Bool) : List Book → Except String (List Book)
  | [] => .ok []
  | b :: bs => do
      let keep ← p b
      let rest ← filterE p bs
      pure (if keep then b :: rest else rest)

/-- Search `LibraryManager.searchBooks` of the Quiz 03 refactor variant. -/
def searchBooksE (bks : List Book) (q : SearchQuery) (caseSensitive : Bool) :
    Except String (List Book) :=
  filterE (sbPredE q caseSensitive) bks

/-- The (total) result of `searchBooks` in its case-insensitive default mode. -/
def searchBooksCI (bks : List Book) (q : SearchQuery) : List Book :=
  bks.filter (ciPred q)

-- ---------------------------------------------------------------------------
-- searchBooks — `src/unnamed/part_001` lines 131-146.  Its `match` helper
-- returns true when either the criterion or the field on the record is falsy, so
-- it is total even in case-sensitive mode.
-- ---------------------------------------------------------------------------

/-- The `match` helper of the part_001 `searchBooks`:
`if (!value || !field) return true` then `includes` (lower-cased unless
case-sensitive). -/
def p1Match (field value : Option String) (caseSensitive : Bool) : Bool :=
  if ¬ jsTruthyStr value ∨ ¬ jsTruthyStr field then true
  else
    match field, value with
    | some f, some v =>
        if caseSensitive then jsIncludes f v
        else jsIncludes (jsToLower f) (jsToLower v)
    | _, _ => true

/-- Search `LibraryManager.searchBooks` of the part_001 variant. -/
def searchBooksP1 (bks : List Book) (q : SearchQuery) (caseSensitive : Bool) :
    List Book :=
  bks.filter fun b =>
    p1Match b.title q.title caseSensitive &&
    p1Match b.author q.author caseSensitive &&
    p1Match b.genre q.genre caseSensitive

-- ---------------------------------------------------------------------------
-- updateBook — `src/Quiz 03/Refactor/02-modern-js/library.js` lines 94-111.
--   book.title  ??= updates.title;   (assign when nullish)
--   book.author ||= updates.author;  (assign when falsy)
--   book.genre  &&= updates.genre;   (assign when truthy!)
--   if (updates.availability) book.availability =
--       { ...book.availability, ...updates.availability };
-- ---------------------------------------------------------------------------

/-- Object spread `{ ...old, ...upd }` on availability sub-records: a property
present on `upd` wins, otherwise the old property survives. -/
def spreadAvail (old : Option Availability) (upd : Availability) : Availability :=
  { status := upd.status.orElse fun _ => old.bind (·.status)
  , location := upd.location.orElse fun _ => old.bind (·.location)
  , dueDate := upd.dueDate.orElse fun _ => old.bind (·.dueDate) }

/-- Update `LibraryManager.updateBook` of the Quiz 03 refactor variant (both `book`
and `updates` present; with either absent the call is a silent no-op). -/
def updateBookQ3 (book : Book) (u : BookUpdate) : Book :=
  { book with
    title := book.title.orElse fun _ => u.title
    author := if jsTruthyStr book.author then book.author else u.author
    genre := if jsTruthyStr book.genre then u.genre else book.genre
    availability :=
      match u.availability with
      | none => book.availability
      | some ua => some (spreadAvail book.availability ua) }

-- ---------------------------------------------------------------------------
-- updateBook — `src/unnamed/part_001` lines 156-172.
-- `Object.entries(updates)` assigns each defined value with `??=` (so also
-- `book.availability ??= updates.availability` as a whole object), then
-- `book.availability ||= {}` and each availability entry with `??=`.
-- ---------------------------------------------------------------------------

/-- Update `LibraryManager.updateBook` of the part_001 variant. -/
def updateBookP1 (book : Book) (u : BookUpdate) : Book :=
  let afterLoop : Book :=
    { book with
      title := book.title.orElse fun _ => u.title
      author := book.author.orElse fun _ => u.author
      genre := book.genre.orElse fun _ => u.genre
      availability := book.availability.orElse fun _ => u.availability }
  match u.availability with
  | none => afterLoop
  | some ua =>
      let av := afterLoop.availability.getD ⟨none, none, none⟩
      { afterLoop with
        availability := some
          { status := av.status.orElse fun _ => ua.status
          , location := av.location.orElse fun _ => ua.location
          , dueDate := av.dueDate.orElse fun _ => ua.dueDate } }

-- ---------------------------------------------------------------------------
-- Statistics — `#updateStatistics` (Quiz 03 library.js lines 146-159 and
-- part_001 lines 176-182): `filter(...).length` over the two status values.
-- ---------------------------------------------------------------------------

/-- The derived statistics snapshot `{ total, available, checkedOut }`. -/
structure Statistics where
  total : Nat
  available : Nat
  checkedOut : Nat
deriving DecidableEq, Repr

/-- Test `b.availability?.status === "available"`. -/
def isAvailable (b : Book) : Bool := b.availability.bind (·.status) == some "available"

/-- Test `b.availability?.status === "checked_out"`. -/
def isCheckedOut (b : Book) : Bool := b.availability.bind (·.status) == some "checked_out"

/-- Recomputation `#updateStatistics`: the snapshot as a pure function of the
record sequence. -/
def updateStatistics (bks : List Book) : Statistics :=
  { total := bks.length
  , available := (bks.filter isAvailable).length
  , checkedOut := (bks.filter isCheckedOut).length }

/-- The `LibraryManager` state: its record sequence and its private
`#statistics` snapshot. -/
structure LibraryManager where
  books : List Book
  statistics : Statistics
deriving DecidableEq, Repr

/-- The constructor: shallow-copies the seed records and recomputes statistics. -/
def mkLibraryManager (initialBooks : List Book) : LibraryManager :=
  { books := initialBooks, statistics := updateStatistics initialBooks }

/-- Append `addBooks(...newBooks)` of the Quiz 03 variant: early-returns on an empty
rest argument, otherwise appends and recomputes statistics. -/
def addBooks (m : LibraryManager) (newBooks : List Book) : LibraryManager :=
  if newBooks.isEmpty then m
  else
    { books := m.books ++ newBooks
    , statistics := updateStatistics (m.books ++ newBooks) }

/-- Update `updateBook` at the manager level: the book argument is an element of the
array, mutated in place, so the list keeps all other entries; statistics are
recomputed afterwards (Quiz 03 field semantics for the merge itself). -/
def updateBookM (m : LibraryManager) (i : Nat) (u : BookUpdate) : LibraryManager :=
  let bks := match m.books[i]? with
    | none => m.books
    | some b => m.books.set i (updateBookQ3 b u)
  { books := bks, statistics := updateStatistics bks }

-- ---------------------------------------------------------------------------
-- filterBooksByStatus — `src/Quiz 03/Refactor/02-modern-js/data.js` lines
-- 83-89 (lower-cases both sides) and `src/02-modern-js/data.js` lines 55-59
-- (strict equality, no case normalization).
-- ---------------------------------------------------------------------------

/-- Predicate of the Quiz 03 variant:
`book.availability?.status?.toLowerCase() === status.toLowerCase()` (an absent
chain link makes the left side undefined, which never equals a string). -/
def statusMatchQ3 (status : String) (b : Book) : Bool :=
  match b.availability.bind (·.status) with
  | some st => jsToLower st == jsToLower status
  | none => false

/-- Quiz 03 `filterBooksByStatus`. -/
def filterBooksByStatus (bks : List Book) (status : String) : List Book :=
  bks.filter (statusMatchQ3 status)

/-- Predicate of the 02-modern-js variant:
`book.availability?.status === status` (strict, no case normalization). -/
def statusMatch02 (status : String) (b : Book) : Bool :=
  b.availability.bind (·.status) == some status

/-- Variant `filterBooksByStatus` of 02-modern-js. -/
def filterBooksByStatus02 (bks : List Book) (status : String) : List Book :=
  bks.filter (statusMatch02 status)

-- ---------------------------------------------------------------------------
-- createBookSummary — the data module embedded in
-- `src/Quiz 03/Refactor/02-modern-js/library.js` (lines 492-508): destructures
-- `availability: { status, location, dueDate } = {}`, uses `?? "Unknown
-- Location"` and `?? "N/A"` fallbacks and an em dash before the phrase.
-- ---------------------------------------------------------------------------

/-- Summary `createBookSummary` of the Quiz 03 refactor variant (library.js). -/
def createBookSummaryQ3 (b : Book) : String :=
  let status := b.availability.bind (·.status)
  let location := b.availability.bind (·.location)
  let dueDate := b.availability.bind (·.dueDate)
  let availabilityText :=
    if status == some "available" then
      "Available at " ++ location.getD "Unknown Location"
    else if status == some "checked_out" then
      "Checked out, due on " ++ dueDate.getD "N/A"
    else "Status Unknown"
  jsStr b.title ++ " by " ++ jsStr b.author ++ " (" ++ jsIntStr b.year ++ ") — " ++
    availabilityText

-- ---------------------------------------------------------------------------
-- createBookSummary — `src/02-modern-js/data.js` lines 84-100: a hyphen
-- separator, no `??` fallbacks (so `undefined` is interpolated verbatim) and
-- the phrase "Availability unknown".
-- ---------------------------------------------------------------------------

/-- Summary `createBookSummary` of the 02-modern-js variant (data.js). -/
def createBookSummary02 (b : Book) : String :=
  let status := b.availability.bind (·.status)
  let location := b.availability.bind (·.location)
  let dueDate := b.availability.bind (·.dueDate)
  let availabilityText :=
    if status == some "available" then
      "Available at " ++ jsStr location
    else if status == some "checked_out" then
      "Checked out, due on " ++ jsStr dueDate
    else "Availability unknown"
  jsStr b.title ++ " by " ++ jsStr b.author ++ " (" ++ jsIntStr b.year ++ ") - " ++
    availabilityText

-- ---------------------------------------------------------------------------
-- memoize — `src/Quiz 03/Refactor/02-modern-js/library.js` lines 177-186 and
-- `src/unnamed/part_001` lines 193-203.  The cache is a Map keyed by
-- `JSON.stringify(args)`; one call of the memoized function is a step on the
-- cache, returning the result, the new cache, and how often `fn` was invoked.
-- ---------------------------------------------------------------------------

/-- One call of the memoized function, with the argument serialization `ser`
standing for `JSON.stringify(args)`.  Returns `(result, cache, invocations)`. -/
def memoStep {α β : Type} (ser : α → String) (fn : α → β)
    (cache : List (String × β)) (x : α) : β × List (String × β) × Nat :=
  let key := ser x
  match cache.lookup key with
  | some v => (v, cache, 0)
  | none => (fn x, (key, fn x) :: cache, 1)

/-- Serialization `JSON.stringify([a, b])` for a pair of integers. -/
def jsonPairKey (p : Int × Int) : String :=
  "[" ++ toString p.1 ++ "," ++ toString p.2 ++ "]"

-- ---------------------------------------------------------------------------
-- getStatistics — `src/unnamed/part_001` lines 150-152:
-- `return { ...this.#statistics };`.  To talk about aliasing we give objects
-- identities: a heap of statistics objects addressed by index; the private field of the manager
-- private field is an address, and `{ ... }` allocates a fresh cell.
-- ---------------------------------------------------------------------------

/-- A heap of statistics objects; an address is an index into the list. -/
abbrev Heap : Type := List Statistics

/-- Heap read (a dangling address reads a default, never reached here). -/
def hGet (h : Heap) (r : Nat) : Statistics := List.getD h r ⟨0, 0, 0⟩

/-- Heap write: field mutation of the object at address `r`. -/
def hPut (h : Heap) (r : Nat) (v : Statistics) : Heap := List.set h r v

/-- A manager whose private `#statistics` field is a heap address. -/
structure ManagerH where
  books : List Book
  statsAddr : Nat
deriving DecidableEq, Repr

/-- Accessor `getStatistics()` of the part_001 variant: `{ ...this.#statistics }`
allocates a fresh object holding a shallow copy and returns its address. -/
def getStatisticsH (m : ManagerH) (h : Heap) : Nat × Heap :=
  (h.length, h ++ [hGet h m.statsAddr])

-- ---------------------------------------------------------------------------
-- Claim-side definitions.  These follow the words of the specification, not
-- the source, and exist only to be compared with the definitions above.
-- ---------------------------------------------------------------------------

/-- Claim-side search criterion: the supplied criterion is a substring of the
corresponding field, both sides lower-cased; an omitted (or empty, hence
falsy) criterion matches every record. -/
def claimSubstrCrit (crit field : Option String) : Prop :=
  normalizeCI crit = "" ∨
    ∃ l r, (normalizeCI field).data = l ++ (normalizeCI crit).data ++ r

/-- Claim-side genre criterion of the original claim: the category/genre
criterion requires an exact match after normalization. -/
def claimExactGenre (crit field : Option String) : Bool :=
  match crit with
  | none => true
  | some v =>
      if jsToLower v = "" then true else normalizeCI field == jsToLower v

/-- Claim-side search, worded as the original claim: title and author are
substring criteria, genre is an exact-match criterion. -/
def claimSearch (bks : List Book) (q : SearchQuery) : List Book :=
  bks.filter fun b =>
    ciMatch q.title b.title && ciMatch q.author b.author &&
      claimExactGenre q.genre b.genre

/-- Claim-side availability phrase of the summary claim (five cases, exactly
as the claim words them; the phrase for a present availability whose status is
neither value is not specified by the claim and defaults like the last case). -/
def claimPhrase (b : Book) : String :=
  match b.availability with
  | none => "Status Unknown"
  | some av =>
      if av.status = some "available" then
        match av.location with
        | some l => "Available at " ++ l
        | none => "Available at Unknown Location"
      else if av.status = some "checked_out" then
        match av.dueDate with
        | some d => "Checked out, due on " ++ d
        | none => "Checked out, due on N/A"
      else "Status Unknown"

/-- Claim-side one-line summary, with the hyphen separator the claim states. -/
def claimSummary (b : Book) : String :=
  jsStr b.title ++ " by " ++ jsStr b.author ++ " (" ++ jsIntStr b.year ++ ") - " ++
    claimPhrase b

/-- The statistics invariant of the claims: total equals the number of records
and the two status counts never exceed it. -/
abbrev statsInv (m : LibraryManager) : Prop :=
  m.statistics.total = m.books.length ∧
    m.statistics.available + m.statistics.checkedOut ≤ m.statistics.total

-- ---------------------------------------------------------------------------
-- Helper lemmas.
-- ---------------------------------------------------------------------------

theorem ciMatch_iff (crit field : Option String) :
    ciMatch crit field = true ↔ claimSubstrCrit crit field := by
  unfold ciMatch claimSubstrCrit
  by_cases h : normalizeCI crit = ""
  · simp [h]
  · simp [h, jsIncludes_iff]

theorem filterE_ok (p : Book → Bool) (q : SearchQuery) (cs : Bool)
    (hp : ∀ b, sbPredE q cs b = .ok (p b)) :
    ∀ l, filterE (sbPredE q cs) l = .ok (l.filter p) := by
  intro l
  induction l with
  | nil => rfl
  | cons b bs ih =>
      rw [filterE, hp b, ih]
      by_cases h : p b = true <;>
        simp [List.filter_cons, h, Bind.bind, Except.bind, Pure.pure, Except.pure]

theorem sbPredE_false (q : SearchQuery) (b : Book) :
    sbPredE q false b = .ok (ciPred q b) := rfl

theorem disjoint_status (b : Book) :
    ¬ (isAvailable b = true ∧ isCheckedOut b = true) := by
  rintro ⟨h1, h2⟩
  simp only [isAvailable, beq_iff_eq] at h1
  simp only [isCheckedOut, beq_iff_eq] at h2
  rw [h1] at h2
  exact absurd (Option.some_injective _ h2) (by decide)

theorem filter_status_le (l : List Book) :
    (l.filter isAvailable).length + (l.filter isCheckedOut).length ≤ l.length := by
  induction l with
  | nil => simp
  | cons b bs ih =>
      cases h1 : isAvailable b <;> cases h2 : isCheckedOut b
      · simp [List.filter_cons, h1, h2]; omega
      · simp [List.filter_cons, h1, h2]; omega
      · simp [List.filter_cons, h1, h2]; omega
      · exact absurd ⟨h1, h2⟩ (disjoint_status b)

theorem statsInv_updateStatistics (bks : List Book) :
    (updateStatistics bks).total = bks.length ∧
      (updateStatistics bks).available + (updateStatistics bks).checkedOut ≤
        (updateStatistics bks).total :=
  ⟨rfl, filter_status_le bks⟩

-- ---------------------------------------------------------------------------
-- Claim theorems.
-- ---------------------------------------------------------------------------

/-- C2 (counterexample): the claim says the category/genre criterion requires
an exact match after normalization, but `searchBooks` uses `includes` on the
genre too: searching the one-record catalog whose genre is "Programming" with
the genre criterion "gram" returns the record, while the claim-side search
with an exact genre criterion returns nothing. -/
theorem searchBooks_genre_exact_fails :
    searchBooksCI [⟨some 1, some "T", some "A", some 2000, some "Programming", none⟩]
        ⟨none, none, some "gram"⟩ ≠
      claimSearch [⟨some 1, some "T", some "A", some 2000, some "Programming", none⟩]
        ⟨none, none, some "gram"⟩ := by
  decide

/-- C2 (amended): `searchBooks` returns exactly the subsequence of records
where every supplied criterion — including the category/genre criterion — is a
case-insensitive substring match against the corresponding field (both sides
lower-cased); an omitted criterion matches every record.  In the part_001
variant a criterion against a present, non-empty field is likewise a
lower-cased substring match. -/
theorem searchBooks_substring_characterization (R : List Book) (q : SearchQuery)
    (b : Book) :
    (b ∈ searchBooksCI R q ↔
      b ∈ R ∧ claimSubstrCrit q.title b.title ∧ claimSubstrCrit q.author b.author ∧
        claimSubstrCrit q.genre b.genre) ∧
    (∀ f v : String, f ≠ "" → v ≠ "" →
      (p1Match (some f) (some v) false = true ↔
        ∃ l r, (jsToLower f).data = l ++ (jsToLower v).data ++ r)) := by
  constructor
  · simp [searchBooksCI, List.mem_filter, ciPred, Bool.and_eq_true, ciMatch_iff,
      and_assoc]
  · intro f v hf hv
    simp [p1Match, jsTruthyStr, hf, hv, jsIncludes_iff]

/-- C2 (witness): the genre field "Programming" is substring-matched by the
criterion "gram" in the part_001 variant as well. -/
theorem searchBooks_substring_witness :
    p1Match (some "Programming") (some "gram") false = true ↔
      ∃ l r, (jsToLower "Programming").data = l ++ (jsToLower "gram").data ++ r :=
  (searchBooks_substring_characterization []
      ⟨none, none, none⟩ ⟨none, none, none, none, none, none⟩).2
    "Programming" "gram" (by decide) (by decide)

/-- C5: searching with an empty criteria object returns the whole record
sequence in its original order, in both the Quiz 03 variant (either
case-sensitivity mode, without an error) and the part_001 variant. -/
theorem searchBooks_no_criteria_identity (R : List Book) (cs : Bool) :
    searchBooksE R ⟨none, none, none⟩ cs = .ok R ∧
      searchBooksP1 R ⟨none, none, none⟩ cs = R := by
  constructor
  · have hp : ∀ b, sbPredE ⟨none, none, none⟩ cs b = .ok ((fun _ => true) b) := by
      intro b; cases cs <;> rfl
    have h := filterE_ok (fun _ => true) ⟨none, none, none⟩ cs hp R
    simpa [searchBooksE] using h
  · simp [searchBooksP1, p1Match, jsTruthyStr]

theorem updateBookP1_availability (b : Book) (u : BookUpdate) (av : Availability)
    (hav : b.availability = some av) :
    (updateBookP1 b u).availability =
      match u.availability with
      | none => some av
      | some ua =>
          some ⟨av.status.orElse fun _ => ua.status,
                av.location.orElse fun _ => ua.location,
                av.dueDate.orElse fun _ => ua.dueDate⟩ := by
  cases hu : u.availability <;> simp [updateBookP1, hav, hu, Option.orElse]

/-- C1 (counterexample): the Quiz 03 `updateBook` uses `book.genre &&=
updates.genre`, which assigns exactly when the current genre is truthy: a
record whose genre is the non-empty string "Programming" gets its genre
overwritten with "History", and an availability sub-field already set to "A1"
is overwritten by the spread with "B2" — contradicting the claim that a
non-empty field is never overwritten. -/
theorem updateBook_overwrites_nonempty :
    (updateBookQ3
        ⟨some 1, some "T", some "A", some 2000, some "Programming",
          some ⟨some "available", some "A1", none⟩⟩
        ⟨none, none, some "History", some ⟨none, some "B2", none⟩⟩).genre =
      some "History" ∧
    (updateBookQ3
        ⟨some 1, some "T", some "A", some 2000, some "Programming",
          some ⟨some "available", some "A1", none⟩⟩
        ⟨none, none, some "History", some ⟨none, some "B2", none⟩⟩).availability =
      some ⟨some "available", some "B2", none⟩ := by
  decide

/-- C1 (amended): in the part_001 `updateBook`, every field present in the
updates is assigned only if the current value on the record is absent — a
non-empty title, author or genre is never overwritten, and availability
sub-fields merge the same way field-by-field.  In the Quiz 03 variant this
holds for title (nullish check) and author (falsy check), but genre is
overwritten whenever it is already truthy and availability sub-fields from
the updates take precedence.  In both variants, updating a record whose title
is "X" with updates whose title is "Y" leaves the title "X". -/
theorem updateBook_merge_not_overwrite (b : Book) (u : BookUpdate) :
    (jsTruthyStr b.title = true → (updateBookP1 b u).title = b.title) ∧
    (jsTruthyStr b.author = true → (updateBookP1 b u).author = b.author) ∧
    (jsTruthyStr b.genre = true → (updateBookP1 b u).genre = b.genre) ∧
    (∀ av s, b.availability = some av → av.status = some s →
      ∃ av', (updateBookP1 b u).availability = some av' ∧ av'.status = some s) ∧
    (∀ av l, b.availability = some av → av.location = some l →
      ∃ av', (updateBookP1 b u).availability = some av' ∧ av'.location = some l) ∧
    (∀ av d, b.availability = some av → av.dueDate = some d →
      ∃ av', (updateBookP1 b u).availability = some av' ∧ av'.dueDate = some d) ∧
    (jsTruthyStr b.title = true → (updateBookQ3 b u).title = b.title) ∧
    (jsTruthyStr b.author = true → (updateBookQ3 b u).author = b.author) ∧
    (updateBookP1 ⟨none, some "X", none, none, none, none⟩
        ⟨some "Y", none, none, none⟩).title = some "X" ∧
    (updateBookQ3 ⟨none, some "X", none, none, none, none⟩
        ⟨some "Y", none, none, none⟩).title = some "X" := by
  refine ⟨?_, ?_, ?_, ?_, ?_, ?_, ?_, ?_, by decide, by decide⟩
  · intro h
    cases ht : b.title with
    | none => rw [ht] at h; exact absurd h (by decide)
    | some t => cases hu : u.availability <;>
        simp [updateBookP1, ht, hu, Option.orElse]
  · intro h
    cases ht : b.author with
    | none => rw [ht] at h; exact absurd h (by decide)
    | some t => cases hu : u.availability <;>
        simp [updateBookP1, ht, hu, Option.orElse]
  · intro h
    cases ht : b.genre with
    | none => rw [ht] at h; exact absurd h (by decide)
    | some t => cases hu : u.availability <;>
        simp [updateBookP1, ht, hu, Option.orElse]
  · intro av s hav hs
    rw [updateBookP1_availability b u av hav]
    cases hu : u.availability with
    | none => exact ⟨av, rfl, hs⟩
    | some ua => exact ⟨_, rfl, by simp [hs, Option.orElse]⟩
  · intro av l hav hl
    rw [updateBookP1_availability b u av hav]
    cases hu : u.availability with
    | none => exact ⟨av, rfl, hl⟩
    | some ua => exact ⟨_, rfl, by simp [hl, Option.orElse]⟩
  · intro av d hav hd
    rw [updateBookP1_availability b u av hav]
    cases hu : u.availability with
    | none => exact ⟨av, rfl, hd⟩
    | some ua => exact ⟨_, rfl, by simp [hd, Option.orElse]⟩
  · intro h
    cases ht : b.title with
    | none => rw [ht] at h; exact absurd h (by decide)
    | some t => simp [updateBookQ3, ht, Option.orElse]
  · intro h
    simp [updateBookQ3, h]

/-- C1 (witness): on a fully populated record, neither variant of
`updateBook` touches the non-empty title. -/
theorem updateBook_merge_witness :
    (updateBookP1
        ⟨some 1, some "T", some "A", some 2000, some "G",
          some ⟨some "available", some "L", none⟩⟩
        ⟨some "T2", some "A2", some "G2", some ⟨some "checked_out", none, none⟩⟩).title =
      some "T" ∧
    (updateBookQ3
        ⟨some 1, some "T", some "A", some 2000, some "G",
          some ⟨some "available", some "L", none⟩⟩
        ⟨some "T2", some "A2", some "G2", some ⟨some "checked_out", none, none⟩⟩).title =
      some "T" :=
  ⟨(updateBook_merge_not_overwrite
      ⟨some 1, some "T", some "A", some 2000, some "G",
        some ⟨some "available", some "L", none⟩⟩
      ⟨some "T2", some "A2", some "G2", some ⟨some "checked_out", none, none⟩⟩).1
      (by decide),
   (updateBook_merge_not_overwrite
      ⟨some 1, some "T", some "A", some 2000, some "G",
        some ⟨some "available", some "L", none⟩⟩
      ⟨some "T2", some "A2", some "G2", some ⟨some "checked_out", none, none⟩⟩).2.2.2.2.2.2.1
      (by decide)⟩

/-- C3 (counterexample): the claim states the separator between the year and
the availability phrase is a plain hyphen ("<title> by <author> (<year>) -
..."), but the Quiz 03 `createBookSummary` emits an em dash, and the
02-modern-js variant (which does use a hyphen) words the absent-availability
phrase "Availability unknown", not "Status Unknown": on a record without
availability both variants differ from the claim-side string. -/
theorem createBookSummary_format_fails :
    createBookSummaryQ3 ⟨some 3, some "D", some "G", some 1994, some "S", none⟩ ≠
        claimSummary ⟨some 3, some "D", some "G", some 1994, some "S", none⟩ ∧
      createBookSummary02 ⟨some 3, some "D", some "G", some 1994, some "S", none⟩ ≠
        claimSummary ⟨some 3, some "D", some "G", some 1994, some "S", none⟩ := by
  decide

/-- C3 (amended): the Quiz 03 `createBookSummary` returns
"<title> by <author> (<year>) — <availability phrase>" with an em dash, where
the phrase is "Available at <location>" (falling back to "Unknown Location"),
"Checked out, due on <due_date>" (falling back to "N/A"), and "Status
Unknown" when availability is absent; the 02-modern-js variant separates with
" - " but interpolates a missing location or due date as "undefined" and
words the absent-availability phrase "Availability unknown". -/
theorem createBookSummary_characterization (b : Book) :
    (b.availability = none →
      createBookSummaryQ3 b =
        jsStr b.title ++ " by " ++ jsStr b.author ++ " (" ++ jsIntStr b.year ++
          ") — " ++ "Status Unknown") ∧
    (∀ av l, b.availability = some av → av.status = some "available" →
      av.location = some l →
      createBookSummaryQ3 b =
        jsStr b.title ++ " by " ++ jsStr b.author ++ " (" ++ jsIntStr b.year ++
          ") — " ++ ("Available at " ++ l)) ∧
    (∀ av, b.availability = some av → av.status = some "available" →
      av.location = none →
      createBookSummaryQ3 b =
        jsStr b.title ++ " by " ++ jsStr b.author ++ " (" ++ jsIntStr b.year ++
          ") — " ++ ("Available at " ++ "Unknown Location")) ∧
    (∀ av d, b.availability = some av → av.status = some "checked_out" →
      av.dueDate = some d →
      createBookSummaryQ3 b =
        jsStr b.title ++ " by " ++ jsStr b.author ++ " (" ++ jsIntStr b.year ++
          ") — " ++ ("Checked out, due on " ++ d)) ∧
    (∀ av, b.availability = some av → av.status = some "checked_out" →
      av.dueDate = none →
      createBookSummaryQ3 b =
        jsStr b.title ++ " by " ++ jsStr b.author ++ " (" ++ jsIntStr b.year ++
          ") — " ++ ("Checked out, due on " ++ "N/A")) ∧
    (b.availability = none →
      createBookSummary02 b =
        jsStr b.title ++ " by " ++ jsStr b.author ++ " (" ++ jsIntStr b.year ++
          ") - " ++ "Availability unknown") ∧
    (∀ av, b.availability = some av → av.status = some "available" →
      createBookSummary02 b =
        jsStr b.title ++ " by " ++ jsStr b.author ++ " (" ++ jsIntStr b.year ++
          ") - " ++ ("Available at " ++ jsStr av.location)) ∧
    (∀ av, b.availability = some av → av.status = some "checked_out" →
      createBookSummary02 b =
        jsStr b.title ++ " by " ++ jsStr b.author ++ " (" ++ jsIntStr b.year ++
          ") - " ++ ("Checked out, due on " ++ jsStr av.dueDate)) := by
  refine ⟨?_, ?_, ?_, ?_, ?_, ?_, ?_, ?_⟩
  · intro h
    simp [createBookSummaryQ3, h]
  · intro av l hav hs hl
    simp [createBookSummaryQ3, hav, hs, hl]
  · intro av hav hs hl
    simp [createBookSummaryQ3, hav, hs, hl]
  · intro av d hav hs hd
    simp [createBookSummaryQ3, hav, hs, hd]
  · intro av hav hs hd
    simp [createBookSummaryQ3, hav, hs, hd]
  · intro h
    simp [createBookSummary02, h]
  · intro av hav hs
    simp [createBookSummary02, hav, hs]
  · intro av hav hs
    simp [createBookSummary02, hav, hs]

/-- C3 (witness): the characterization evaluated on a concrete checked-out
record with a due date. -/
theorem createBookSummary_characterization_witness :
    createBookSummaryQ3
        ⟨some 2, some "B", some "K", some 2014, some "P",
          some ⟨some "checked_out", none, some "2024-12-01"⟩⟩ =
      jsStr (some "B") ++ " by " ++ jsStr (some "K") ++ " (" ++
        jsIntStr (some 2014) ++ ") — " ++ ("Checked out, due on " ++ "2024-12-01") :=
  (createBookSummary_characterization
      ⟨some 2, some "B", some "K", some 2014, some "P",
        some ⟨some "checked_out", none, some "2024-12-01"⟩⟩).2.2.2.1
    ⟨some "checked_out", none, some "2024-12-01"⟩ "2024-12-01" rfl rfl rfl

/-- C4: the statistics snapshot always satisfies total = length of the record
sequence and available + checkedOut ≤ total: it holds after the constructor
and after every updateBook call, and addBooks preserves it (recomputing on a
non-empty argument list and leaving the state untouched on an empty one). -/
theorem statistics_invariant (init : List Book) (m : LibraryManager)
    (newBooks : List Book) (i : Nat) (u : BookUpdate) :
    statsInv (mkLibraryManager init) ∧
      (statsInv m → statsInv (addBooks m newBooks)) ∧
      statsInv (updateBookM m i u) := by
  refine ⟨statsInv_updateStatistics init, ?_, ?_⟩
  · intro hm
    unfold addBooks
    by_cases h : newBooks.isEmpty <;> simp [h]
    · exact hm
    · exact statsInv_updateStatistics (m.books ++ newBooks)
  · unfold updateBookM
    cases h : m.books[i]? <;> simp [h] <;> exact statsInv_updateStatistics _

/-- C4 (witness): the invariant on the catalog built from one record and
extended with a second. -/
theorem statistics_invariant_witness :
    statsInv (addBooks
      (mkLibraryManager [⟨some 1, some "T", some "A", some 2000, some "P",
        some ⟨some "available", some "L", none⟩⟩])
      [⟨some 2, some "U", some "B", some 2001, some "P", none⟩]) :=
  (statistics_invariant []
      (mkLibraryManager [⟨some 1, some "T", some "A", some 2000, some "P",
        some ⟨some "available", some "L", none⟩⟩])
      [⟨some 2, some "U", some "B", some 2001, some "P", none⟩] 0
      ⟨none, none, none, none⟩).2.1
    (statistics_invariant
      [⟨some 1, some "T", some "A", some 2000, some "P",
        some ⟨some "available", some "L", none⟩⟩]
      (mkLibraryManager []) [] 0 ⟨none, none, none, none⟩).1

/-- C6 (counterexample): the claim says a record matches when its availability
state equals the given value after case normalization, but the 02-modern-js
`filterBooksByStatus` compares strictly: filtering a catalog whose one record
has status "available" by "Available" returns nothing although the two are
equal after lower-casing. -/
theorem filterBooksByStatus_normalization_fails :
    filterBooksByStatus02
        [⟨some 1, some "T", some "A", some 2000, some "P",
          some ⟨some "available", some "L", none⟩⟩] "Available" = [] ∧
      jsToLower "available" = jsToLower "Available" := by
  decide

/-- C6 (amended): both `filterBooksByStatus` variants return a subsequence of
the input; the Quiz 03 variant keeps exactly the records whose availability
state equals the requested one after lower-casing both sides, while the
02-modern-js variant requires exact equality; a record with absent
availability never matches any state in either variant, and a sequence with
no (normalized) checked-out records filtered by "checked_out" yields the
empty sequence. -/
theorem filterBooksByStatus_characterization (R : List Book) (s : String)
    (b : Book) :
    (filterBooksByStatus R s).Sublist R ∧
    (b ∈ filterBooksByStatus R s ↔
      b ∈ R ∧ ∃ st, b.availability.bind (·.status) = some st ∧
        jsToLower st = jsToLower s) ∧
    (b ∈ filterBooksByStatus02 R s ↔
      b ∈ R ∧ b.availability.bind (·.status) = some s) ∧
    (b.availability = none →
      b ∉ filterBooksByStatus R s ∧ b ∉ filterBooksByStatus02 R s) ∧
    ((∀ x ∈ R, statusMatchQ3 "checked_out" x = false) →
      filterBooksByStatus R "checked_out" = []) := by
  refine ⟨List.filter_sublist R, ?_, ?_, ?_, ?_⟩
  · rw [filterBooksByStatus, List.mem_filter]
    constructor
    · rintro ⟨hb, hm⟩
      refine ⟨hb, ?_⟩
      unfold statusMatchQ3 at hm
      cases hst : b.availability.bind (·.status) with
      | none => rw [hst] at hm; cases hm
      | some st =>
          rw [hst] at hm
          exact ⟨st, rfl, by simpa using hm⟩
    · rintro ⟨hb, st, hst, he⟩
      exact ⟨hb, by simp [statusMatchQ3, hst, he]⟩
  · rw [filterBooksByStatus02, List.mem_filter]
    simp [statusMatch02]
  · intro h
    constructor
    · rw [filterBooksByStatus, List.mem_filter]
      rintro ⟨-, hm⟩
      simp [statusMatchQ3, h] at hm
    · rw [filterBooksByStatus02, List.mem_filter]
      rintro ⟨-, hm⟩
      simp [statusMatch02, h] at hm
  · intro h
    exact List.filter_eq_nil_iff.mpr fun x hx => by simp [h x hx]

/-- C6 (witness): the concrete catalog with one available record: the record
is kept by the Quiz 03 filter for "Available", never matches without
availability data, and an all-available catalog filtered by "checked_out" is
empty. -/
theorem filterBooksByStatus_witness :
    (⟨some 1, some "T", some "A", some 2000, some "P",
        some ⟨some "available", some "L", none⟩⟩ : Book) ∈
      filterBooksByStatus
        [⟨some 1, some "T", some "A", some 2000, some "P",
          some ⟨some "available", some "L", none⟩⟩] "Available" ∧
    filterBooksByStatus
        [⟨some 1, some "T", some "A", some 2000, some "P",
          some ⟨some "available", some "L", none⟩⟩] "checked_out" = [] :=
  ⟨((filterBooksByStatus_characterization
      [⟨some 1, some "T", some "A", some 2000, some "P",
        some ⟨some "available", some "L", none⟩⟩] "Available"
      ⟨some 1, some "T", some "A", some 2000, some "P",
        some ⟨some "available", some "L", none⟩⟩).2.1).mpr
    ⟨by decide, "available", rfl, by decide⟩,
   (filterBooksByStatus_characterization
      [⟨some 1, some "T", some "A", some 2000, some "P",
        some ⟨some "available", some "L", none⟩⟩] "x"
      ⟨some 1, some "T", some "A", some 2000, some "P",
        some ⟨some "available", some "L", none⟩⟩).2.2.2.2
    (by decide)⟩

/-- C7: two calls of a memoized function whose argument serializations agree
invoke the wrapped function at most once in total and return the same value;
when the key is not yet cached (as for the first ever call) the function is
invoked exactly once. -/
theorem memoize_single_invocation {α β : Type} (ser : α → String) (fn : α → β)
    (c : List (String × β)) (x y : α) (h : ser x = ser y) :
    (memoStep ser fn c x).1 =
        (memoStep ser fn (memoStep ser fn c x).2.1 y).1 ∧
      (memoStep ser fn c x).2.2 +
          (memoStep ser fn (memoStep ser fn c x).2.1 y).2.2 ≤ 1 ∧
      (c.lookup (ser x) = none →
        (memoStep ser fn c x).2.2 +
            (memoStep ser fn (memoStep ser fn c x).2.1 y).2.2 = 1) := by
  unfold memoStep
  rw [← h]
  cases hc : c.lookup (ser x) with
  | some v => simp [hc]
  | none => simp [hc]

/-- C7 (witness): memoizing addition on the pair (1, 2) with the
JSON-serialized key, starting from the empty cache: both calls return 3 and
the function is invoked exactly once across the two calls. -/
theorem memoize_single_invocation_witness :
    (memoStep jsonPairKey (fun p => p.1 + p.2) [] (1, 2)).1 =
        (memoStep jsonPairKey (fun p => p.1 + p.2)
          (memoStep jsonPairKey (fun p => p.1 + p.2) [] (1, 2)).2.1 (1, 2)).1 ∧
      (memoStep jsonPairKey (fun p => p.1 + p.2) [] (1, 2)).2.2 +
          (memoStep jsonPairKey (fun p => p.1 + p.2)
            (memoStep jsonPairKey (fun p => p.1 + p.2) [] (1, 2)).2.1 (1, 2)).2.2 = 1 :=
  ⟨(memoize_single_invocation jsonPairKey (fun p => p.1 + p.2) [] (1, 2) (1, 2)
      rfl).1,
   (memoize_single_invocation jsonPairKey (fun p => p.1 + p.2) [] (1, 2) (1, 2)
      rfl).2.2 rfl⟩

/-- C8 (counterexample): the claim says search never raises, but the Quiz 03
`searchBooks` in case-sensitive mode evaluates `normalize(book.title).includes(t)`
with `normalize` the identity, so a record without a title makes a
case-sensitive title search throw a TypeError instead of returning a list. -/
theorem searchBooks_raises_on_missing_field :
    searchBooksE [⟨some 3, none, some "G", some 1994, some "S", none⟩]
        ⟨some "x", none, none⟩ true = .error "TypeError" ∧
      searchBooksE [⟨some 3, none, some "G", some 1994, some "S", none⟩]
          ⟨some "x", none, none⟩ true ≠ .ok [] := by
  refine ⟨rfl, ?_⟩
  intro h
  rw [show searchBooksE [⟨some 3, none, some "G", some 1994, some "S", none⟩]
      ⟨some "x", none, none⟩ true = .error "TypeError" from rfl] at h
  cases h

/-- C8 (amended): in the default case-insensitive mode `searchBooks` never
raises — it always returns a list — and returns the empty list whenever no
record matches; `filterBooksByStatus` likewise returns the empty list when no
record has the requested (normalized) status.  Only a case-sensitive search
over a record lacking a searched field throws. -/
theorem search_no_match_returns_empty (R : List Book) (q : SearchQuery)
    (s : String) :
    searchBooksE R q false = .ok (searchBooksCI R q) ∧
      ((∀ b ∈ R, ciPred q b = false) → searchBooksCI R q = []) ∧
      ((∀ b ∈ R, statusMatchQ3 s b = false) → filterBooksByStatus R s = []) := by
  refine ⟨filterE_ok (ciPred q) q false (fun b => rfl) R, ?_, ?_⟩
  · intro h
    exact List.filter_eq_nil_iff.mpr fun x hx => by simp [h x hx]
  · intro h
    exact List.filter_eq_nil_iff.mpr fun x hx => by simp [h x hx]

/-- C8 (witness): on a one-record catalog matching neither the title
criterion "zzz" nor the status "checked_out", both lookups return the empty
list. -/
theorem search_no_match_returns_empty_witness :
    searchBooksCI [⟨some 1, some "T", some "A", some 2000, some "P",
        some ⟨some "available", some "L", none⟩⟩] ⟨some "zzz", none, none⟩ = [] ∧
      filterBooksByStatus [⟨some 1, some "T", some "A", some 2000, some "P",
        some ⟨some "available", some "L", none⟩⟩] "checked_out" = [] :=
  ⟨(search_no_match_returns_empty
      [⟨some 1, some "T", some "A", some 2000, some "P",
        some ⟨some "available", some "L", none⟩⟩]
      ⟨some "zzz", none, none⟩ "checked_out").2.1 (by decide),
   (search_no_match_returns_empty
      [⟨some 1, some "T", some "A", some 2000, some "P",
        some ⟨some "available", some "L", none⟩⟩]
      ⟨some "zzz", none, none⟩ "checked_out").2.2 (by decide)⟩

theorem hGet_append_self (h : Heap) (x : Statistics) :
    hGet (h ++ [x]) h.length = x := by
  simp [hGet, List.getD_eq_getElem?_getD,
    List.getElem?_append_right (Nat.le_refl h.length)]

theorem hGet_append_lt (h : Heap) (x : Statistics) (i : Nat) (hi : i < h.length) :
    hGet (h ++ [x]) i = hGet h i := by
  simp [hGet, List.getD_eq_getElem?_getD, List.getElem?_append_left hi]

theorem hGet_put_ne (h : Heap) (r i : Nat) (v : Statistics) (hne : r ≠ i) :
    hGet (hPut h r v) i = hGet h i := by
  simp [hGet, hPut, List.getD_eq_getElem?_getD, List.getElem?_set_ne hne]

/-- C9: `getStatistics` allocates and returns a fresh shallow copy of the
private statistics object — the returned address differs from the internal
one, its contents equal the internal snapshot, and overwriting the returned
object leaves the internal snapshot, and hence the contents returned by any
subsequent `getStatistics`, unchanged. -/
theorem getStatistics_returns_copy (m : ManagerH) (h : Heap)
    (hv : m.statsAddr < h.length) :
    (getStatisticsH m h).1 ≠ m.statsAddr ∧
      hGet (getStatisticsH m h).2 (getStatisticsH m h).1 = hGet h m.statsAddr ∧
      ∀ v, hGet (hPut (getStatisticsH m h).2 (getStatisticsH m h).1 v)
              m.statsAddr = hGet h m.statsAddr ∧
        hGet (getStatisticsH m
            (hPut (getStatisticsH m h).2 (getStatisticsH m h).1 v)).2
          (getStatisticsH m
            (hPut (getStatisticsH m h).2 (getStatisticsH m h).1 v)).1 =
          hGet h m.statsAddr := by
  refine ⟨(Nat.ne_of_lt hv).symm, hGet_append_self h _, ?_⟩
  intro v
  simp only [getStatisticsH]
  have ha : hGet (hPut (h ++ [hGet h m.statsAddr]) h.length v) m.statsAddr =
      hGet h m.statsAddr := by
    rw [hGet_put_ne _ _ _ _ (Nat.ne_of_lt hv).symm, hGet_append_lt _ _ _ hv]
  exact ⟨ha, by rw [hGet_append_self, ha]⟩

/-- C9 (witness): on a one-cell heap holding the snapshot at address 0,
overwriting the copy returned by `getStatistics` leaves the internal cell
unchanged. -/
theorem getStatistics_returns_copy_witness :
    (getStatisticsH ⟨[], 0⟩ [⟨1, 1, 0⟩]).1 ≠ 0 ∧
      hGet (hPut (getStatisticsH ⟨[], 0⟩ [⟨1, 1, 0⟩]).2
          (getStatisticsH ⟨[], 0⟩ [⟨1, 1, 0⟩]).1 ⟨9, 9, 9⟩) 0 =
        hGet [⟨1, 1, 0⟩] 0 :=
  ⟨(getStatistics_returns_copy ⟨[], 0⟩ [⟨1, 1, 0⟩] (by decide)).1,
   ((getStatistics_returns_copy ⟨[], 0⟩ [⟨1, 1, 0⟩] (by decide)).2.2 ⟨9, 9, 9⟩).1⟩

/-- C10: in the part_001 `searchBooks`, the match helper returns true whenever
the field on the record is falsy (absent or empty), whatever the criterion and
case mode; consequently a record whose title is absent is included in the
results of any title-only search. -/
theorem searchBooksP1_falsy_field_matches (field value : Option String)
    (cs : Bool) (R : List Book) (b : Book) (v : String)
    (hmem : b ∈ R) (ht : b.title = none) (hf : jsTruthyStr field = false) :
    p1Match field value cs = true ∧
      b ∈ searchBooksP1 R ⟨some v, none, none⟩ cs := by
  constructor
  · simp [p1Match, hf]
  · rw [searchBooksP1, List.mem_filter]
    refine ⟨hmem, ?_⟩
    simp [p1Match, ht, jsTruthyStr]

/-- C10 (witness): the record without a title is returned by the part_001
search for the non-empty title criterion "clean". -/
theorem searchBooksP1_falsy_field_matches_witness :
    p1Match none (some "x") false = true ∧
      (⟨some 3, none, some "GG", some 1994, some "S", none⟩ : Book) ∈
        searchBooksP1 [⟨some 3, none, some "GG", some 1994, some "S", none⟩]
          ⟨some "clean", none, none⟩ false :=
  searchBooksP1_falsy_field_matches none (some "x") false
    [⟨some 3, none, some "GG", some 1994, some "S", none⟩]
    ⟨some 3, none, some "GG", some 1994, some "S", none⟩ "clean"
    (by decide) rfl rfl

end LibSpec
